import Mathlib

/-!
Shallow embedding of `src/apps/ai-gateway/main.py`, a FastAPI service with
three GET endpoints (`/health`, `/`, `/test-hot-reload`), a CORS middleware
configuration, and a `uvicorn.run` bootstrap, plus theorems checking the
specification's claims against it.
-/

namespace AiGateway

/-- JSON-like values: the handlers only ever build objects of string fields. -/
inductive JsonValue where
  | str : String → JsonValue
  | obj : List (String × JsonValue) → JsonValue

/-- Look up a field of a JSON object (first match), `none` otherwise. -/
def JsonValue.getField : JsonValue → String → Option JsonValue
  | .str _, _ => none
  | .obj fields, k =>
      match fields.find? (fun p => p.1 = k) with
      | some p => some p.2
      | none => none

/-- The list of keys of a JSON object, in order; `[]` for a string. -/
def JsonValue.keys : JsonValue → List String
  | .str _ => []
  | .obj fields => fields.map Prod.fst

/-- Body of `health_check` in `main.py`: returns the literal dict
`{"status": "ok", "timestamp": "2024-01-01T00:00:00Z",
  "service": "ai-gateway", "version": "1.0.0"}`. -/
def health_check : JsonValue :=
  .obj [("status", .str "ok"),
        ("timestamp", .str "2024-01-01T00:00:00Z"),
        ("service", .str "ai-gateway"),
        ("version", .str "1.0.0")]

/-- Body of `root` in `main.py`: returns the literal dict
`{"message": "AI Gateway Service is running"}`. -/
def root : JsonValue :=
  .obj [("message", .str "AI Gateway Service is running")]

/-- Body of `test_hot_reload` in `main.py`: returns the literal dict
`{"message": "Hot reload is working!", "timestamp": "2024-01-01T00:00:00Z"}`. -/
def test_hot_reload : JsonValue :=
  .obj [("message", .str "Hot reload is working!"),
        ("timestamp", .str "2024-01-01T00:00:00Z")]

/-- An HTTP response: status code and optional JSON body. -/
structure Response where
  status : Nat
  body : Option JsonValue

/-- The route table registered on the app by the `@app.get(...)` decorators in
`main.py`: exactly three routes, all with method GET. The dispatch of a
request to a registered handler, and the 404 result for any
method-and-path pair with no registered route, are FastAPI framework
behaviour not present under `src/`; that default is

Modelled from the spec: "Requests to undefined routes (e.g., `POST /tts`)
return HTTP 404" and "all error behavior is the default behavior of the
underlying web framework (e.g., 404 for unknown routes)". A matched handler
here returns status 200 with the handler's dict as body (the FastAPI default
status for a handler that returns normally). -/
def handleRequest (method : String) (path : String) : Response :=
  if method = "GET" ∧ path = "/health" then
    ⟨200, some health_check⟩
  else if method = "GET" ∧ path = "/" then
    ⟨200, some root⟩
  else if method = "GET" ∧ path = "/test-hot-reload" then
    ⟨200, some test_hot_reload⟩
  else
    ⟨404, none⟩

/-- Each Python handler, viewed as an invocation against an arbitrary program
state `σ`: the bodies in `main.py` read no state, mutate nothing, and return
a dict literal, so the invocation returns the constant payload and passes the
state through unchanged. -/
def health_check_invoke (σ : Type) (s : σ) : JsonValue × σ :=
  (health_check, s)

/-- `root` as a state-passing invocation; see `health_check_invoke`. -/
def root_invoke (σ : Type) (s : σ) : JsonValue × σ :=
  (root, s)

/-- `test_hot_reload` as a state-passing invocation; see
`health_check_invoke`. -/
def test_hot_reload_invoke (σ : Type) (s : σ) : JsonValue × σ :=
  (test_hot_reload, s)

/-- Configuration passed to `uvicorn.run` in the `__main__` block. -/
structure ServerConfig where
  host : String
  port : Nat
deriving Repr, DecidableEq

/-- The `uvicorn.run(app, host="0.0.0.0", port=8001)` call in `main.py`. -/
def mainServerConfig : ServerConfig :=
  ⟨"0.0.0.0", 8001⟩

/-- Configuration passed to `app.add_middleware(CORSMiddleware, ...)`. -/
structure CorsConfig where
  allow_origins : List String
  allow_credentials : Bool
  allow_methods : List String
  allow_headers : List String
deriving Repr, DecidableEq

/-- The CORS middleware registration in `main.py`. -/
def corsConfig : CorsConfig :=
  { allow_origins := ["http://localhost:3000", "http://localhost:4000"],
    allow_credentials := true,
    allow_methods := ["*"],
    allow_headers := ["*"] }

/-- An origin string is a local development origin when it is an
`http://localhost:<port>` origin. -/
def isLocalDevOrigin (origin : String) : Bool :=
  List.isPrefixOf "http://localhost:".toList origin.toList

end AiGateway

namespace AiGateway

/-- C1: every invocation of GET /health yields HTTP status 200 and a payload
whose `status` field equals the string "ok". -/
theorem health_returns_200_status_ok :
    (handleRequest "GET" "/health").status = 200 ∧
    (handleRequest "GET" "/health").body = some health_check ∧
    health_check.getField "status" = some (.str "ok") :=
  ⟨rfl, rfl, rfl⟩

/-- C2: every method-and-path pair that is none of the three registered
routes (GET /health, GET /, GET /test-hot-reload) is answered with
HTTP status 404. -/
theorem undefined_routes_return_404 (method path : String)
    (h : ¬ (method = "GET" ∧
        (path = "/health" ∨ path = "/" ∨ path = "/test-hot-reload"))) :
    (handleRequest method path).status = 404 := by
  unfold handleRequest
  by_cases h1 : method = "GET" ∧ path = "/health"
  · exact absurd ⟨h1.1, Or.inl h1.2⟩ h
  · by_cases h2 : method = "GET" ∧ path = "/"
    · exact absurd ⟨h2.1, Or.inr (Or.inl h2.2)⟩ h
    · by_cases h3 : method = "GET" ∧ path = "/test-hot-reload"
      · exact absurd ⟨h3.1, Or.inr (Or.inr h3.2)⟩ h
      · simp [h1, h2, h3]

/-- Witness for C2: POST /tts is not a registered route and returns 404. -/
theorem undefined_routes_return_404_witness :
    (handleRequest "POST" "/tts").status = 404 :=
  undefined_routes_return_404 "POST" "/tts" (by decide)

/-- C3: the payload of GET /health is an object whose keys are exactly
status, timestamp, service and version. -/
theorem health_payload_keys :
    (handleRequest "GET" "/health").body = some health_check ∧
    health_check.keys = ["status", "timestamp", "service", "version"] := by
  exact ⟨rfl, rfl⟩

/-- C4: every invocation of GET /test-hot-reload yields HTTP status 200, a
payload whose keys are exactly message and timestamp, and whose `message`
field equals the string "Hot reload is working!". -/
theorem test_hot_reload_200_message :
    (handleRequest "GET" "/test-hot-reload").status = 200 ∧
    (handleRequest "GET" "/test-hot-reload").body = some test_hot_reload ∧
    test_hot_reload.keys = ["message", "timestamp"] ∧
    test_hot_reload.getField "message" = some (.str "Hot reload is working!") :=
  ⟨rfl, rfl, rfl, rfl⟩

/-- C5: every invocation of GET / yields HTTP status 200 and a payload whose
`message` field is a non-empty string. -/
theorem root_returns_200_nonempty_message :
    (handleRequest "GET" "/").status = 200 ∧
    (handleRequest "GET" "/").body = some root ∧
    ∃ m, root.getField "message" = some (.str m) ∧ m ≠ "" :=
  ⟨rfl, rfl, "AI Gateway Service is running", rfl, by decide⟩

/-- C6: each of the three registered handlers takes no request input and is a
pure invocation: from any state it returns the same constant payload, leaves
the state unchanged, and (being a total Lean function into `JsonValue × σ`,
not an `Option` or `Except`) has no failure outcome. -/
theorem handlers_pure_and_state_preserving (σ : Type) (s t : σ) :
    (health_check_invoke σ s).1 = (health_check_invoke σ t).1 ∧
    (health_check_invoke σ s).2 = s ∧
    (root_invoke σ s).1 = (root_invoke σ t).1 ∧
    (root_invoke σ s).2 = s ∧
    (test_hot_reload_invoke σ s).1 = (test_hot_reload_invoke σ t).1 ∧
    (test_hot_reload_invoke σ s).2 = s :=
  ⟨rfl, rfl, rfl, rfl, rfl, rfl⟩

/-- C7: the `__main__` block starts the server listening on all interfaces
(host "0.0.0.0") at port 8001. -/
theorem main_listens_all_interfaces_8001 :
    mainServerConfig.host = "0.0.0.0" ∧ mainServerConfig.port = 8001 :=
  ⟨rfl, rfl⟩

/-- C8: the CORS allowlist consists of exactly two origins, both local
development origins: http://localhost:3000 and http://localhost:4000. -/
theorem cors_allowlist_two_local_origins :
    corsConfig.allow_origins =
      ["http://localhost:3000", "http://localhost:4000"] ∧
    corsConfig.allow_origins.length = 2 ∧
    ∀ o ∈ corsConfig.allow_origins, isLocalDevOrigin o = true := by
  refine ⟨rfl, rfl, ?_⟩
  intro o ho
  simp only [corsConfig, List.mem_cons, List.not_mem_nil, or_false] at ho
  rcases ho with h | h <;> subst h <;> decide

/-- C9: the `timestamp` field returned by GET /health and by
GET /test-hot-reload is the hard-coded constant "2024-01-01T00:00:00Z"
independent of any program state, so any two invocations of the same
endpoint return identical payloads. -/
theorem timestamps_constant_payloads_identical (σ : Type) (s t : σ) :
    (health_check_invoke σ s).1.getField "timestamp" =
      some (.str "2024-01-01T00:00:00Z") ∧
    (test_hot_reload_invoke σ s).1.getField "timestamp" =
      some (.str "2024-01-01T00:00:00Z") ∧
    (health_check_invoke σ s).1 = (health_check_invoke σ t).1 ∧
    (test_hot_reload_invoke σ s).1 = (test_hot_reload_invoke σ t).1 :=
  ⟨rfl, rfl, rfl, rfl⟩

/-- C10: every invocation of GET / returns a payload whose `message` field
equals exactly the string "AI Gateway Service is running". -/
theorem root_message_exact :
    (handleRequest "GET" "/").body = some root ∧
    root.getField "message" = some (.str "AI Gateway Service is running") :=
  ⟨rfl, rfl⟩

end AiGateway
